import Mathlib

/-
Verification of the salsa incremental-computation fragment: the component
code generator (src/components/salsa-entity-macros/src/component.rs) and the
concurrent cancellation scenario exercised by src/tests/parallel/frozen.rs.

The code generator is embedded shallowly: the fragment of the syn AST that
component.rs inspects is modelled as inductive types, and each generator
function is translated clause by clause.  Parts of the crate that are not in
the visible sources (crate::configuration, crate::options, the runtime) are
modelled from the spec and marked as such in their doc comments.
-/

namespace Salsa

/-- Function-parameter patterns, the fragment of syn the generator inspects:
a plain named identifier, or anything else (which the generator rejects). -/
inductive Pat where
  | ident (name : String)
  | wild
  deriving DecidableEq, Repr

/-- The fragment of syn types the generator inspects: reference types with an
optional named lifetime, plain path types, and the unit type. -/
inductive Ty where
  | ref (lifetime : Option String) (elem : Ty)
  | path (name : String)
  | unit
  deriving DecidableEq, Repr

/-- A function argument: a `self` receiver or a typed pattern. -/
inductive FnArg where
  | receiver
  | typed (pat : Pat) (ty : Ty)
  deriving DecidableEq, Repr

/-- A function's return type: absent (`()`) or an explicit type. -/
inductive ReturnType where
  | default
  | ty (t : Ty)
  deriving DecidableEq, Repr

/-- The one shape of where-predicate the generator emits (accumulated_fn):
`<Jar as salsa::jar::Jar<'lt>>::DynDb: HasJar<A::Jar>`. -/
inductive WherePred where
  | hasJar (jarTy : String) (lifetime : String)
  deriving DecidableEq, Repr

/-- A function signature: name, generic lifetimes, generic type parameters,
where-clause predicates, inputs and output. -/
structure Signature where
  ident : String
  lifetimes : List String
  typeParams : List String
  wherePreds : List WherePred
  inputs : List FnArg
  output : ReturnType
  deriving DecidableEq, Repr

/-- Function bodies.  The user's body is opaque (a tag); each body the
generator emits is a dedicated constructor recording exactly the pieces the
generator splices in. -/
inductive Block where
  | user (tag : Nat)
  | cloneGet (structTy : String) (argIdents : List String)
  | getCall (structTy : String) (argIdents : List String)
  | fetchDelegate (jarTy : String) (structTy : String) (dbVar : String) (argNames : List String)
  | setDelegate (jarTy : String) (structTy : String) (dbVar : String) (argNames : List String)
  | accDelegate (jarTy : String) (structTy : String) (dbVar : String) (argNames : List String)
  deriving DecidableEq, Repr

/-- A function item: signature plus body. -/
structure ItemFn where
  sig : Signature
  block : Block
  deriving DecidableEq, Repr

/-- Modelled from the spec: the `Options` argument struct (crate::options is
not under src/).  `return_ref` and `no_eq` are presence-only flags; `jar`
names the jar type (with its default already resolved by `jar_ty`). -/
structure Args where
  returnRef : Option Unit
  noEq : Option Unit
  jarTy : String
  deriving DecidableEq, Repr

/-- The `AllowedOptions` constants, one Bool per recognizable option. -/
structure AllowedOptions where
  RETURN_REF : Bool
  NO_EQ : Bool
  JAR : Bool
  DATA : Bool
  DB : Bool
  deriving DecidableEq, Repr

/-- The `impl AllowedOptions for Component` block of component.rs. -/
def componentAllowedOptions : AllowedOptions :=
  { RETURN_REF := true, NO_EQ := true, JAR := true, DATA := false, DB := false }

/-- The cycle recovery strategies plumbed through the configuration. -/
inductive CycleRecoveryStrategy where
  | Panic
  | Fallback
  deriving DecidableEq, Repr

/-- Modelled from the spec: the two backdate functions
`configuration::should_backdate_value_fn` can produce (crate::configuration
is not under src/): compare values for equality and keep `changed_at` when
equal, or always update `changed_at`. -/
inductive BackdateFn where
  | valueEq
  | alwaysUpdate
  deriving DecidableEq, Repr

/-- Modelled from the spec: the cycle-recovery function slot
(crate::configuration is not under src/): the panicking recovery function,
or some other recovery function. -/
inductive RecoverFn where
  | panicRecovery
  | custom (tag : Nat)
  deriving DecidableEq, Repr

/-- Modelled from the spec: `configuration::panic_cycle_recovery_fn`
(crate::configuration is not under src/). -/
def panicCycleRecoveryFn : RecoverFn := .panicRecovery

/-- Modelled from the spec: `Options::should_backdate` (crate::options is not
under src/) — backdating is on unless `no_eq` was given. -/
def Args.shouldBackdate (args : Args) : Bool := args.noEq.isNone

/-- Modelled from the spec: `configuration::should_backdate_value_fn`
(crate::configuration is not under src/) — selects the value-equality
backdating function when backdating is on, the always-update function
otherwise. -/
def shouldBackdateValueFn (b : Bool) : BackdateFn :=
  if b then .valueEq else .alwaysUpdate

/-- Modelled from the spec: `configuration::value_ty` (crate::configuration
is not under src/) — the value type is the declared return type, unit when
the return type is absent. -/
def valueTyOf (sig : Signature) : Ty :=
  match sig.output with
  | .default => .unit
  | .ty t => t

/-- Statements in the generated `execute` body, after the embedded copy of
the user's function: the jar lookup, the ingredient lookup, and a call. -/
inductive ExecStmt where
  | letJar
  | letIngredients
  | callFn (fname : String) (callArgs : List String)
  deriving DecidableEq, Repr

/-- The generated `execute` function: the copy of the user's function it
embeds, and the statements of its own body. -/
structure ExecuteFn where
  innerFn : ItemFn
  body : List ExecStmt
  deriving DecidableEq, Repr

/-- The `Configuration` record assembled by `fn_configuration`
(crate::configuration declares the record; its fields are read off the
component.rs construction site). -/
structure Configuration where
  jarTy : String
  keyTy : Ty
  valueTy : Ty
  cycleStrategy : CycleRecoveryStrategy
  backdateFn : BackdateFn
  executeFn : ExecuteFn
  recoverFn : RecoverFn
  deriving DecidableEq, Repr

/-- Failures of the generator: a compile error carrying its message, or a
Rust panic (out-of-bounds indexing). -/
inductive GenFailure where
  | compileError (msg : String)
  | panicked
  deriving DecidableEq, Repr

/-- Translation of `arg_ty` of component.rs: requires exactly two inputs (database and
entity) and returns the type of the second. -/
def argTy (f : ItemFn) : Except GenFailure Ty :=
  match f.sig.inputs with
  | [_, .typed _ t] => .ok t
  | [_, .receiver] => .error (.compileError "expected a fn parameter with a type")
  | _ => .error (.compileError "component method needs a database argument and an entity")

/-- The loop body of `fn_args`: reject receivers and unnamed patterns,
collect the identifier of every input. -/
def fnArgsCollect : List FnArg → Except GenFailure (List String)
  | [] => .ok []
  | .receiver :: _ => .error (.compileError "no self argument expected")
  | .typed (.ident n) _ :: rest =>
      match fnArgsCollect rest with
      | .ok ns => .ok (n :: ns)
      | .error e => .error e
  | .typed .wild _ :: _ => .error (.compileError "all arguments must be given names")

/-- Translation of `fn_args` of component.rs: error when there are no inputs, otherwise the
first identifier is the database variable and the rest are the argument
names. -/
def fnArgs (f : ItemFn) : Except GenFailure (String × List String) :=
  if f.sig.inputs.isEmpty then
    .error (.compileError "method needs a database argument")
  else
    match fnArgsCollect f.sig.inputs with
    | .error e => .error e
    | .ok [] => .error .panicked
    | .ok (db :: rest) => .ok (db, rest)

/-- The argument-identifier collection inlined in `getter_fn` (its error
message is "unexpected receiver" for receivers and non-identifier patterns
alike). -/
def getterArgIdents : List FnArg → Except GenFailure (List String)
  | [] => .ok []
  | .receiver :: _ => .error (.compileError "unexpected receiver")
  | .typed (.ident n) _ :: rest =>
      match getterArgIdents rest with
      | .ok ns => .ok (n :: ns)
      | .error e => .error e
  | .typed .wild _ :: _ => .error (.compileError "unexpected receiver")

/-- Translation of `db_lifetime_and_ty` of component.rs: inspect input 0 (a Rust panic when
there is none); a receiver or a non-reference type is a compile error; a
reference with a named lifetime is returned as is; a reference without one
gets the fresh lifetime `__db` inserted at the front of the generics and onto
the reference type. -/
def dbLifetimeAndTy (f : ItemFn) : Except GenFailure (String × ItemFn) :=
  match f.sig.inputs with
  | [] => .error .panicked
  | .receiver :: _ => .error (.compileError "expected database, not self")
  | .typed _ (.ref (some lt) _) :: _ => .ok (lt, f)
  | .typed p (.ref none e) :: rest =>
      .ok ("__db",
        { f with sig := { f.sig with
            lifetimes := "__db" :: f.sig.lifetimes,
            inputs := .typed p (.ref (some "__db") e) :: rest } })
  | .typed _ (.path _) :: _ => .error (.compileError "expected database to be a `&` type")
  | .typed _ .unit :: _ => .error (.compileError "expected database to be a `&` type")

/-- Translation of `make_fn_return_ref` of component.rs: name the database lifetime, then
wrap the declared output (unit when absent) in a reference under that
lifetime. -/
def makeFnReturnRef (f : ItemFn) : Except GenFailure ItemFn :=
  match dbLifetimeAndTy f with
  | .error e => .error e
  | .ok (lt, f2) =>
      let elem := match f2.sig.output with
        | .default => Ty.unit
        | .ty t => t
      .ok { f2 with sig := { f2.sig with output := .ty (.ref (some lt) elem) } }

/-- Translation of `getter_fn` of component.rs: collect the argument identifiers; with
`return_ref` the getter keeps the original name, gets the reference return
type and delegates to `get`; without it the body clones the result of
`get`. -/
def getterFn (args : Args) (f : ItemFn) (structTy : String) : Except GenFailure ItemFn :=
  match getterArgIdents f.sig.inputs with
  | .error e => .error e
  | .ok idents =>
    if args.returnRef.isSome then
      match makeFnReturnRef f with
      | .error e => .error e
      | .ok g => .ok { g with block := .getCall structTy idents }
    else
      .ok { f with block := .cloneGet structTy idents }

/-- Translation of `ref_getter_fn` of component.rs: rename to `get`, force the reference
return type, and delegate to the function ingredient's `fetch`. -/
def refGetterFn (args : Args) (f : ItemFn) (structTy : String) : Except GenFailure ItemFn :=
  match makeFnReturnRef { f with sig := { f.sig with ident := "get" } } with
  | .error e => .error e
  | .ok g1 =>
    match fnArgs f with
    | .error e => .error e
    | .ok (dbVar, argNames) =>
        .ok { g1 with block := .fetchDelegate args.jarTy structTy dbVar argNames }

/-- Translation of `setter_fn` of component.rs: rename to `set`, append the `__value`
parameter of the value type, drop the return type, and delegate to the
function ingredient's `set`. -/
def setterFn (args : Args) (f : ItemFn) (structTy : String) : Except GenFailure ItemFn :=
  match fnArgs f with
  | .error e => .error e
  | .ok (dbVar, argNames) =>
    .ok { f with
      sig := { f.sig with
        ident := "set",
        inputs := f.sig.inputs ++ [.typed (.ident "__value") (valueTyOf f.sig)],
        output := .default },
      block := .setDelegate args.jarTy structTy dbVar argNames }

/-- The output type `Vec<A::Data>` that `accumulated_fn` installs. -/
def accDataOutput : Ty := .path "Vec<<__A as salsa::accumulator::Accumulator>::Data>"

/-- Translation of `accumulated_fn` of component.rs: rename to `accumulated`, append the
generic parameter `__A`, set the output to `Vec<A::Data>`, name the database
lifetime and push the `HasJar` where-predicate under it, then delegate to the
function ingredient's `accumulated`. -/
def accumulatedFn (args : Args) (f : ItemFn) (structTy : String) : Except GenFailure ItemFn :=
  match dbLifetimeAndTy { f with sig := { f.sig with
      ident := "accumulated",
      typeParams := f.sig.typeParams ++ ["__A"],
      output := .ty accDataOutput } } with
  | .error e => .error e
  | .ok (lt, a1) =>
    match fnArgs f with
    | .error e => .error e
    | .ok (dbVar, argNames) =>
        .ok { sig := { a1.sig with
                wherePreds := a1.sig.wherePreds ++ [.hasJar args.jarTy lt] },
              block := .accDelegate args.jarTy structTy dbVar argNames }

/-- The four wrapper functions produced by `wrapper_fns`. -/
structure WrapperFns where
  getter : ItemFn
  refGetter : ItemFn
  setter : ItemFn
  accumulated : ItemFn
  deriving DecidableEq, Repr

/-- Translation of `wrapper_fns` of component.rs, in source order: getter, ref getter,
accumulated, setter; the first failure wins. -/
def wrapperFns (args : Args) (f : ItemFn) (structTy : String) : Except GenFailure WrapperFns :=
  match getterFn args f structTy with
  | .error e => .error e
  | .ok g =>
    match refGetterFn args f structTy with
    | .error e => .error e
    | .ok rg =>
      match accumulatedFn args f structTy with
      | .error e => .error e
      | .ok acc =>
        match setterFn args f structTy with
        | .error e => .error e
        | .ok st => .ok ⟨g, rg, st, acc⟩

/-- Translation of `configuration_struct` of component.rs names the generated struct after
the function itself. -/
def configurationStruct (f : ItemFn) : String := f.sig.ident

/-- Translation of `fn_configuration` of component.rs: the key type comes from `arg_ty`;
the cycle strategy is hardcoded to `Panic` and the recovery function to the
panicking one; the backdate function follows `should_backdate`; the
`execute` function embeds a copy of the user's function renamed `__fn` and,
after the jar and ingredient lookups, calls it once with `__db` and
`__id`. -/
def fnConfiguration (args : Args) (f : ItemFn) : Except GenFailure Configuration :=
  match argTy f with
  | .error e => .error e
  | .ok keyTy =>
    .ok {
      jarTy := args.jarTy
      keyTy := keyTy
      valueTy := valueTyOf f.sig
      cycleStrategy := .Panic
      backdateFn := shouldBackdateValueFn args.shouldBackdate
      executeFn := {
        innerFn := { f with sig := { f.sig with ident := "__fn" } }
        body := [.letJar, .letIngredients, .callFn "__fn" ["__db", "__id"]] }
      recoverFn := panicCycleRecoveryFn }

/-- Everything `component_helper` emits on success. -/
structure GenOutput where
  structName : String
  config : Configuration
  wrappers : WrapperFns
  deriving DecidableEq, Repr

/-- Translation of `component_helper` of component.rs: build the configuration (through
`fn_configuration`, which can fail), then the wrapper functions (which can
fail); the first failure is returned as the error. -/
def componentHelper (args : Args) (f : ItemFn) : Except GenFailure GenOutput :=
  match fnConfiguration args f with
  | .error e => .error e
  | .ok conf =>
    match wrapperFns args f (configurationStruct f) with
    | .error e => .error e
    | .ok w => .ok ⟨configurationStruct f, conf, w⟩

/-- What the `component` entry point emits: generated code, or the compile
error token stream produced from the failure (a panic aborts the build). -/
inductive GenResult where
  | emitted (out : GenOutput)
  | compileErrorEmitted (msg : String)
  | panicked
  deriving DecidableEq, Repr

/-- Translation of `component` of component.rs: run the helper; on error, emit the error's
compile-error token stream instead of generated code. -/
def component (args : Args) (f : ItemFn) : GenResult :=
  match componentHelper args f with
  | .ok o => .emitted o
  | .error (.compileError m) => .compileErrorEmitted m
  | .error .panicked => .panicked

/-- The notice carried by the cancellation unwind. -/
inductive Cancelled where
  | cancelled
  deriving DecidableEq, Repr

/-- Modelled from the spec: the runtime state a snapshot observes — the
cancellation flag raised by a pending write (the runtime crate is not under
src/). -/
structure Runtime where
  cancellationFlag : Bool
  deriving DecidableEq, Repr

/-- Modelled from the spec: `unwind_if_canceled` — when the flag is set the
computation is aborted by an unwind, which `catch_unwind` observes as an
`Err`; otherwise the call returns normally. -/
def unwindIfCanceled (rt : Runtime) : Except Cancelled Unit :=
  if rt.cancellationFlag then .error .cancelled else .ok ()

/-- An active stack of frames above the cancellation check point, each frame
being what the enclosing computation would do next with the callee's result;
an unwind skips every remaining frame. -/
def runFrames (frames : List (Unit → Except Cancelled Unit))
    (r : Except Cancelled Unit) : Except Cancelled Unit :=
  frames.foldl (fun acc fr => acc.bind fr) r

/-- Modelled from the spec: a freshly constructed database starts with the
cancellation flag clear. -/
def Runtime.fresh : Runtime := ⟨false⟩

/-- Modelled from the spec: the operations a read-only handle can perform
(taking a snapshot, running a query, checking for cancellation). -/
inductive ReadOnlyOp where
  | takeSnapshot
  | runQuery
  | checkCancel
  deriving DecidableEq, Repr

/-- Modelled from the spec: read-only operations never raise the
cancellation flag — only a writer's `set` does. -/
def applyReadOp (rt : Runtime) (_ : ReadOnlyOp) : Runtime := rt

/-- Modelled from the spec: a pending `set` raises the cancellation flag
before waiting for readers. -/
def setBegin (_ : Runtime) : Runtime := ⟨true⟩

/-- Modelled from the spec and the structure of frozen.rs: the joint state of
the `in_par_get_set_cancelation` scenario.  `pc1`/`pc2` are the two threads'
program counters, `signal` the `Signal` cell, `lock1` whether thread 1's
snapshot still holds the shared revision lock, `flag` the cancellation flag,
`a` the value of input `'a'`, `rev` the revision counter, `t1Unwound` whether
thread 1's cancellation check has unwound, and `res` thread 2's final read.

Thread 1: pc 0 — first `unwind_if_canceled` (pc 5 would be the unexpected
unwind); pc 1 — `signal(1)`; pc 2 — the cancellation-check loop; pc 3 — done,
snapshot dropped.  Thread 2: pc 0 — `wait_for(1)`; pc 1 — `set` raises the
flag; pc 2 — `set` blocked until the shared lock is free, then applies the
write, advances the revision and clears the flag; pc 3 — read input `'a'`;
pc 4 — done. -/
structure ScenState where
  pc1 : Nat
  pc2 : Nat
  signal : Nat
  lock1 : Bool
  flag : Bool
  a : Nat
  rev : Nat
  t1Unwound : Bool
  res : Option Nat
  deriving DecidableEq, Repr

/-- Steps thread 1 can take from a state. -/
def thread1Steps (s : ScenState) : List ScenState :=
  match s.pc1 with
  | 0 => if s.flag then [{ s with pc1 := 5 }] else [{ s with pc1 := 1 }]
  | 1 => [{ s with signal := max s.signal 1, pc1 := 2 }]
  | 2 => if s.flag then [{ s with t1Unwound := true, lock1 := false, pc1 := 3 }] else []
  | _ => []

/-- Steps thread 2 can take from a state. -/
def thread2Steps (s : ScenState) : List ScenState :=
  match s.pc2 with
  | 0 => if 1 ≤ s.signal then [{ s with pc2 := 1 }] else []
  | 1 => [{ s with flag := true, pc2 := 2 }]
  | 2 => if s.lock1 then [] else
      [{ s with a := 2, rev := s.rev + 1, flag := false, pc2 := 3 }]
  | 3 => [{ s with res := some s.a, pc2 := 4 }]
  | _ => []

/-- The interleaving step relation: either thread moves. -/
def scenStep (s : ScenState) : List ScenState := thread1Steps s ++ thread2Steps s

/-- The initial state: `set_input('a', 1)` has happened, thread 1 holds the
snapshot's shared lock, nothing else has run. -/
def scenInit : ScenState :=
  { pc1 := 0, pc2 := 0, signal := 0, lock1 := true, flag := false,
    a := 1, rev := 1, t1Unwound := false, res := none }

/-- States reachable in the scenario under any interleaving. -/
inductive ScenReachable : ScenState → Prop where
  | init : ScenReachable scenInit
  | step {s t : ScenState} : ScenReachable s → t ∈ scenStep s → ScenReachable t

/-- What a query body can do, as far as an accumulator is concerned: push a
value, or invoke another query. -/
inductive AccAction where
  | push (v : Nat)
  | callQ (q : Nat) (k : Nat)
  deriving DecidableEq, Repr

/-- An environment assigning every query/key pair its body's action list. -/
def QueryEnv : Type := Nat → Nat → List AccAction

/-- Modelled from the spec: the values pushed to an accumulator, in execution
order — a pre-order traversal of the call tree, bounded by fuel. -/
def collectActs (env : QueryEnv) : Nat → List AccAction → List Nat
  | _, [] => []
  | fuel, .push v :: rest => v :: collectActs env fuel rest
  | 0, .callQ _ _ :: rest => collectActs env 0 rest
  | fuel + 1, .callQ q k :: rest =>
      collectActs env fuel (env q k) ++ collectActs env (fuel + 1) rest
  termination_by fuel acts => (fuel, acts)

/-- Modelled from the spec: the implementation's accumulation — a single log
shared down the call tree, appended to at each push as it happens. -/
def runActs (env : QueryEnv) : Nat → List AccAction → List Nat → List Nat
  | _, [], log => log
  | fuel, .push v :: rest, log => runActs env fuel rest (log ++ [v])
  | 0, .callQ _ _ :: rest, log => runActs env 0 rest log
  | fuel + 1, .callQ q k :: rest, log =>
      runActs env (fuel + 1) rest (runActs env fuel (env q k) log)
  termination_by fuel acts => (fuel, acts)

/-- The bookkeeping of a memo that `fetch` refreshes. -/
structure MemoMeta where
  verifiedAt : Nat
  deriving DecidableEq, Repr

/-- Modelled from the spec: `fetch` forces the memo to full freshness — after
it, the memo is verified at the current revision. -/
def fetchToFresh (_ : MemoMeta) (rev : Nat) : MemoMeta := { verifiedAt := rev }

/-- Modelled from the spec: `FunctionIngredient::accumulated` — force `fetch`
of the key to full freshness, then return the log of every value pushed to
the accumulator during the key's computation and the computations it
transitively invoked. -/
def ingredientAccumulated (env : QueryEnv) (fuel : Nat) (m : MemoMeta)
    (rev q k : Nat) : MemoMeta × List Nat :=
  (fetchToFresh m rev, runActs env fuel (env q k) [])

/-- The number of calls to the function named `n` in a generated `execute`
body. -/
def callCount : List ExecStmt → String → Nat
  | [], _ => 0
  | .callFn m _ :: rest, n => (if m = n then 1 else 0) + callCount rest n
  | _ :: rest, n => callCount rest n

/-- The database lifetime is the one named on the first `&`-typed parameter,
or the fresh `__db` when that parameter's reference has no lifetime. -/
def dbLifetimeFrom : List FnArg → String → Prop
  | .typed _ (.ref (some l) _) :: _, lt => lt = l
  | .typed _ (.ref none _) :: _, lt => lt = "__db"
  | _, _ => False

/-- The malformed declarations of the error-handling claim: no parameters at
all, a `self` receiver where the database is expected, a first parameter
that is not a `&`-reference type, or a parameter not bound to a plain named
identifier. -/
def BadDecl (f : ItemFn) : Prop :=
  f.sig.inputs = [] ∨
  (∃ rest, f.sig.inputs = .receiver :: rest) ∨
  (∃ p t rest, f.sig.inputs = .typed p t :: rest ∧ ∀ ol e, t ≠ .ref ol e) ∨
  (∃ a ∈ f.sig.inputs, ∀ n t, a ≠ .typed (.ident n) t)

/-- The set of states reachable in the cancellation scenario, found by
exhausting `scenStep` from `scenInit`. -/
def scenClosure : List ScenState :=
  [{ pc1 := 0, pc2 := 0, signal := 0, lock1 := true, flag := false,
     a := 1, rev := 1, t1Unwound := false, res := none },
   { pc1 := 1, pc2 := 0, signal := 0, lock1 := true, flag := false,
     a := 1, rev := 1, t1Unwound := false, res := none },
   { pc1 := 2, pc2 := 0, signal := 1, lock1 := true, flag := false,
     a := 1, rev := 1, t1Unwound := false, res := none },
   { pc1 := 2, pc2 := 1, signal := 1, lock1 := true, flag := false,
     a := 1, rev := 1, t1Unwound := false, res := none },
   { pc1 := 2, pc2 := 2, signal := 1, lock1 := true, flag := true,
     a := 1, rev := 1, t1Unwound := false, res := none },
   { pc1 := 3, pc2 := 2, signal := 1, lock1 := false, flag := true,
     a := 1, rev := 1, t1Unwound := true, res := none },
   { pc1 := 3, pc2 := 3, signal := 1, lock1 := false, flag := false,
     a := 2, rev := 2, t1Unwound := true, res := none },
   { pc1 := 3, pc2 := 4, signal := 1, lock1 := false, flag := false,
     a := 2, rev := 2, t1Unwound := true, res := some 2 }]

/-- A well-formed sample declaration, after the usage comment at the top of
component.rs: `fn my_func(db: &dyn Jar0Db, input1: u32) -> String`. -/
def sampleFn : ItemFn :=
  { sig := { ident := "my_func", lifetimes := [], typeParams := [],
             wherePreds := [],
             inputs := [.typed (.ident "db") (.ref none (.path "dyn Jar0Db")),
                        .typed (.ident "input1") (.path "u32")],
             output := .ty (.path "String") },
    block := .user 0 }

/-- Sample options: no `return_ref`, no `no_eq`, jar `Jar0`. -/
def sampleArgs : Args := { returnRef := none, noEq := none, jarTy := "Jar0" }

/-- Sample options with `return_ref`. -/
def refArgs : Args := { returnRef := some (), noEq := none, jarTy := "Jar0" }

/-- Sample options with `no_eq`. -/
def noEqArgs : Args := { returnRef := none, noEq := some (), jarTy := "Jar0" }

/-- A declaration with only the database parameter. -/
def dbOnlyFn : ItemFn :=
  { sig := { ident := "my_func", lifetimes := [], typeParams := [],
             wherePreds := [],
             inputs := [.typed (.ident "db") (.ref none (.path "dyn Jar0Db"))],
             output := .ty (.path "String") },
    block := .user 0 }

/-- A declaration with no parameters at all. -/
def noArgFn : ItemFn :=
  { sig := { ident := "my_func", lifetimes := [], typeParams := [],
             wherePreds := [], inputs := [], output := .ty (.path "String") },
    block := .user 0 }

/-- A sample query environment: query 0 pushes 1, invokes query 1 (which
pushes 2), then pushes 3. -/
def sampleEnv : QueryEnv := fun q _ =>
  if q = 0 then [.push 1, .callQ 1 0, .push 3]
  else if q = 1 then [.push 2]
  else []

/- Theorems. -/

/-- Lemma: `scenClosure` is closed under the scenario's step relation. -/
theorem scenClosure_closed :
    ∀ s ∈ scenClosure, ∀ t ∈ scenStep s, t ∈ scenClosure := by decide

/-- Every reachable state of the scenario lies in `scenClosure`. -/
theorem mem_scenClosure_of_reachable {s : ScenState} (h : ScenReachable s) :
    s ∈ scenClosure := by
  induction h with
  | init => decide
  | step _ hm ih => exact scenClosure_closed _ ih _ hm

/-- Claim C1: in the concurrent set/get scenario, thread 1's first
cancellation check never unwinds (state `pc1 = 5` is unreachable); thread 2's
`set` returns (`pc2 ≥ 3`) only after thread 1 has observed cancellation and
unwound, releasing its shared revision lock; and thread 2's final read
(`pc2 = 4`) observes the value 2. -/
theorem in_par_get_set_cancelation (s : ScenState) (h : ScenReachable s) :
    s.pc1 ≠ 5 ∧ (3 ≤ s.pc2 → s.t1Unwound = true ∧ s.lock1 = false) ∧
    (s.pc2 = 4 → s.res = some 2) := by
  have hm := mem_scenClosure_of_reachable h
  have hall : ∀ x ∈ scenClosure,
      x.pc1 ≠ 5 ∧ (3 ≤ x.pc2 → x.t1Unwound = true ∧ x.lock1 = false) ∧
      (x.pc2 = 4 → x.res = some 2) := by decide
  exact hall s hm

/-- Witness for C1: the scenario's final state is reachable, and there the
claimed facts hold concretely. -/
theorem in_par_get_set_cancelation_witness :
    ScenReachable { pc1 := 3, pc2 := 4, signal := 1, lock1 := false,
                    flag := false, a := 2, rev := 2, t1Unwound := true,
                    res := some 2 } ∧
    (some 2 : Option Nat) = some 2 ∧ true = true ∧ false = false := by
  have h0 : ScenReachable scenInit := .init
  have h1 : ScenReachable { pc1 := 1, pc2 := 0, signal := 0, lock1 := true,
                            flag := false, a := 1, rev := 1,
                            t1Unwound := false, res := none } :=
    ScenReachable.step h0 (by decide)
  have h2 : ScenReachable { pc1 := 2, pc2 := 0, signal := 1, lock1 := true,
                            flag := false, a := 1, rev := 1,
                            t1Unwound := false, res := none } :=
    ScenReachable.step h1 (by decide)
  have h3 : ScenReachable { pc1 := 2, pc2 := 1, signal := 1, lock1 := true,
                            flag := false, a := 1, rev := 1,
                            t1Unwound := false, res := none } :=
    ScenReachable.step h2 (by decide)
  have h4 : ScenReachable { pc1 := 2, pc2 := 2, signal := 1, lock1 := true,
                            flag := true, a := 1, rev := 1,
                            t1Unwound := false, res := none } :=
    ScenReachable.step h3 (by decide)
  have h5 : ScenReachable { pc1 := 3, pc2 := 2, signal := 1, lock1 := false,
                            flag := true, a := 1, rev := 1,
                            t1Unwound := true, res := none } :=
    ScenReachable.step h4 (by decide)
  have h6 : ScenReachable { pc1 := 3, pc2 := 3, signal := 1, lock1 := false,
                            flag := false, a := 2, rev := 2,
                            t1Unwound := true, res := none } :=
    ScenReachable.step h5 (by decide)
  have h7 : ScenReachable { pc1 := 3, pc2 := 4, signal := 1, lock1 := false,
                            flag := false, a := 2, rev := 2,
                            t1Unwound := true, res := some 2 } :=
    ScenReachable.step h6 (by decide)
  have hc := in_par_get_set_cancelation _ h7
  exact ⟨h7, hc.2.2 rfl, by simp [(hc.2.1 (by decide)).1], by simp [(hc.2.1 (by decide)).2]⟩

/-- An unwind skips every remaining active frame. -/
theorem runFrames_error (frames : List (Unit → Except Cancelled Unit)) (c : Cancelled) :
    runFrames frames (.error c) = .error c := by
  induction frames with
  | nil => rfl
  | cons fr rest ih =>
      simpa [runFrames, Except.bind] using ih

/-- Claim C7: when the cancellation flag is set, `unwind_if_canceled`
unwinds (the caller observes an error, not a normal return), and the unwind
propagates through every active frame to the snapshot boundary. -/
theorem unwind_if_canceled_unwinds (rt : Runtime) (h : rt.cancellationFlag = true) :
    unwindIfCanceled rt = .error .cancelled ∧
    ∀ frames, runFrames frames (unwindIfCanceled rt) = .error .cancelled := by
  have hu : unwindIfCanceled rt = .error .cancelled := by
    simp [unwindIfCanceled, h]
  exact ⟨hu, fun frames => by rw [hu]; exact runFrames_error frames _⟩

/-- Witness for C7 at a runtime with the flag set and one active frame. -/
theorem unwind_if_canceled_unwinds_witness :
    (Runtime.mk true).cancellationFlag = true ∧
    unwindIfCanceled ⟨true⟩ = .error .cancelled ∧
    runFrames [fun _ => .ok ()] (unwindIfCanceled ⟨true⟩) = .error .cancelled := by
  have h := unwind_if_canceled_unwinds ⟨true⟩ rfl
  exact ⟨rfl, h.1, h.2 _⟩

/-- Read-only operations leave the runtime unchanged. -/
theorem readOps_id (ops : List ReadOnlyOp) (rt : Runtime) :
    ops.foldl applyReadOp rt = rt := by
  induction ops generalizing rt with
  | nil => rfl
  | cons op rest ih => simpa [applyReadOp] using ih rt

/-- Claim C9: a fresh database has the cancellation flag clear, so
`unwind_if_canceled` returns normally for every reader after any sequence of
read-only operations, until a writer's `set` raises the flag; in the
scenario, the flag stays clear in every reachable state where the `set` has
not begun (`pc2 ≤ 1`). -/
theorem flag_clear_until_set :
    Runtime.fresh.cancellationFlag = false ∧
    unwindIfCanceled Runtime.fresh = .ok () ∧
    (∀ ops : List ReadOnlyOp,
      unwindIfCanceled (ops.foldl applyReadOp Runtime.fresh) = .ok ()) ∧
    (∀ rt, unwindIfCanceled (setBegin rt) = .error .cancelled) ∧
    (∀ s, ScenReachable s → s.pc2 ≤ 1 → s.flag = false) := by
  refine ⟨rfl, rfl, ?_, fun rt => rfl, ?_⟩
  · intro ops; rw [readOps_id]; rfl
  · intro s h hle
    have hm := mem_scenClosure_of_reachable h
    have hall : ∀ x ∈ scenClosure, x.pc2 ≤ 1 → x.flag = false := by decide
    exact hall s hm hle

/-- Witness for C9: at the initial scenario state the `set` has not begun and
the flag is clear; one read-only operation keeps the cancellation check
normal. -/
theorem flag_clear_until_set_witness :
    unwindIfCanceled ([ReadOnlyOp.runQuery].foldl applyReadOp Runtime.fresh) = .ok () ∧
    ScenReachable scenInit ∧ scenInit.pc2 ≤ 1 ∧ scenInit.flag = false := by
  exact ⟨flag_clear_until_set.2.2.1 _, .init, by decide,
    flag_clear_until_set.2.2.2.2 scenInit .init (by decide)⟩

/-- On success, `fn_configuration` produces exactly the hardcoded strategy,
recovery function, backdate choice and `execute` function read off its
construction site. -/
theorem fnConfiguration_fields {args : Args} {f : ItemFn} {c : Configuration}
    (h : fnConfiguration args f = .ok c) :
    c.cycleStrategy = .Panic ∧ c.recoverFn = panicCycleRecoveryFn ∧
    c.backdateFn = shouldBackdateValueFn args.shouldBackdate ∧
    c.executeFn = { innerFn := { f with sig := { f.sig with ident := "__fn" } },
                    body := [.letJar, .letIngredients,
                             .callFn "__fn" ["__db", "__id"]] } := by
  unfold fnConfiguration at h
  split at h
  · simp at h
  · simp only [Except.ok.injEq] at h
    subst h
    exact ⟨rfl, rfl, rfl, rfl⟩

/-- Claim C2: every successfully generated configuration carries the `Panic`
cycle recovery strategy and the panicking recovery function; no declaration
selects `Fallback`. -/
theorem cycle_strategy_hardcoded_panic (args : Args) (f : ItemFn) (c : Configuration)
    (h : fnConfiguration args f = .ok c) :
    c.cycleStrategy = .Panic ∧ c.cycleStrategy ≠ .Fallback ∧
    c.recoverFn = panicCycleRecoveryFn := by
  obtain ⟨h1, h2, -, -⟩ := fnConfiguration_fields h
  exact ⟨h1, by rw [h1]; decide, h2⟩

/-- Witness for C2 at the sample declaration. -/
theorem cycle_strategy_hardcoded_panic_witness :
    ∃ c, fnConfiguration sampleArgs sampleFn = .ok c ∧
      c.cycleStrategy = .Panic ∧ c.cycleStrategy ≠ .Fallback ∧
      c.recoverFn = panicCycleRecoveryFn := by
  refine ⟨_, rfl, ?_⟩
  exact cycle_strategy_hardcoded_panic sampleArgs sampleFn _ rfl

/-- Claim C4: the component's `AllowedOptions` enables exactly `return_ref`,
`no_eq` and `jar`, and the `no_eq` option (through `should_backdate`) decides
whether the value-equality backdating function or the always-update function
is installed. -/
theorem allowed_options_and_no_eq_backdate :
    componentAllowedOptions =
      { RETURN_REF := true, NO_EQ := true, JAR := true,
        DATA := false, DB := false } ∧
    ∀ args f c, fnConfiguration args f = .ok c →
      c.backdateFn = (if args.noEq.isSome then .alwaysUpdate else .valueEq) := by
  refine ⟨rfl, fun args f c h => ?_⟩
  obtain ⟨-, -, h3, -⟩ := fnConfiguration_fields h
  rw [h3]
  unfold shouldBackdateValueFn Args.shouldBackdate
  cases hn : args.noEq <;> simp [hn]

/-- Witness for C4: with `no_eq` given, the always-update function is
installed. -/
theorem allowed_options_and_no_eq_backdate_witness :
    ∃ c, fnConfiguration noEqArgs sampleFn = .ok c ∧
      c.backdateFn = .alwaysUpdate := by
  refine ⟨_, rfl, ?_⟩
  have h := allowed_options_and_no_eq_backdate.2 noEqArgs sampleFn _ rfl
  rw [h]
  decide

/-- Claim C10: the generated `execute` embeds the user's body under the
fresh name `__fn`, calls it exactly once, and never calls the query's
original name, so a recursive use of the original name resolves to the
memoizing getter. -/
theorem execute_embeds_inner_fn (args : Args) (f : ItemFn) (c : Configuration)
    (h : fnConfiguration args f = .ok c) :
    c.executeFn.innerFn.sig.ident = "__fn" ∧
    c.executeFn.innerFn.block = f.block ∧
    callCount c.executeFn.body "__fn" = 1 ∧
    (f.sig.ident ≠ "__fn" → callCount c.executeFn.body f.sig.ident = 0) := by
  obtain ⟨-, -, -, h4⟩ := fnConfiguration_fields h
  rw [h4]
  refine ⟨rfl, rfl, ?_, fun hne => ?_⟩
  · simp [callCount]
  · simp only [callCount]
    rw [if_neg fun hh => hne hh.symm]

/-- Witness for C10 at the sample declaration. -/
theorem execute_embeds_inner_fn_witness :
    ∃ c, fnConfiguration sampleArgs sampleFn = .ok c ∧
      c.executeFn.innerFn.sig.ident = "__fn" ∧
      callCount c.executeFn.body "__fn" = 1 ∧
      callCount c.executeFn.body "my_func" = 0 := by
  have h := execute_embeds_inner_fn sampleArgs sampleFn _ rfl
  exact ⟨_, rfl, h.1, h.2.2.1, h.2.2.2 (by decide)⟩

/-- Lemma: `db_lifetime_and_ty` only touches the generics and the first input's
type: the name, type parameters, output, where-clause and body survive. -/
theorem dbLifetimeAndTy_ok_preserves {f f2 : ItemFn} {lt : String}
    (h : dbLifetimeAndTy f = .ok (lt, f2)) :
    f2.sig.ident = f.sig.ident ∧ f2.sig.typeParams = f.sig.typeParams ∧
    f2.sig.output = f.sig.output ∧ f2.sig.wherePreds = f.sig.wherePreds ∧
    f2.block = f.block := by
  unfold dbLifetimeAndTy at h
  split at h
  · simp at h
  · simp at h
  · simp only [Except.ok.injEq, Prod.mk.injEq] at h
    obtain ⟨-, h2⟩ := h
    subst h2
    exact ⟨rfl, rfl, rfl, rfl, rfl⟩
  · simp only [Except.ok.injEq, Prod.mk.injEq] at h
    obtain ⟨-, h2⟩ := h
    subst h2
    exact ⟨rfl, rfl, rfl, rfl, rfl⟩
  · simp at h
  · simp at h

/-- Threading a shared log through the call tree appends exactly the
pre-order pushes: the implementation's accumulation preserves execution
order. -/
theorem runActs_eq_collect (env : QueryEnv) :
    ∀ fuel acts log, runActs env fuel acts log = log ++ collectActs env fuel acts := by
  intro fuel acts log
  induction fuel, acts, log using runActs.induct env with
  | case1 fuel log => simp [runActs, collectActs]
  | case2 fuel v rest log ih =>
      simp [runActs, collectActs, ih]
  | case3 rest log q k ih =>
      simp [runActs, collectActs, ih]
  | case4 fuel q k rest log ih1 ih2 =>
      rw [ih1] at ih2
      simp [runActs, collectActs, ih1, ih2, List.append_assoc]

/-- Claim C8: the generated `accumulated` function is named `accumulated`,
carries the accumulator type parameter `__A`, returns `Vec<A::Data>`, and
delegates to the function ingredient's `accumulated`; the ingredient's
`accumulated` first forces the memo to full freshness and returns, in
execution order, every value pushed during the key's computation and the
computations it transitively invoked. -/
theorem accumulated_fn_delegates (args : Args) (f : ItemFn) (st : String) (a : ItemFn)
    (h : accumulatedFn args f st = .ok a) :
    a.sig.ident = "accumulated" ∧ "__A" ∈ a.sig.typeParams ∧
    a.sig.output = .ty accDataOutput ∧
    (∃ dbVar argNames, fnArgs f = .ok (dbVar, argNames) ∧
      a.block = .accDelegate args.jarTy st dbVar argNames) ∧
    (∀ env fuel m rev q k,
      (ingredientAccumulated env fuel m rev q k).1.verifiedAt = rev ∧
      (ingredientAccumulated env fuel m rev q k).2 = collectActs env fuel (env q k)) := by
  unfold accumulatedFn at h
  split at h
  · simp at h
  · rename_i lt a1 heq
    split at h
    · simp at h
    · rename_i dbVar argNames hf
      obtain ⟨hi, ht, ho, hw, hb⟩ := dbLifetimeAndTy_ok_preserves heq
      simp only [Except.ok.injEq] at h
      subst h
      refine ⟨hi, ?_, ho, ⟨dbVar, argNames, hf, rfl⟩, ?_⟩
      · show "__A" ∈ a1.sig.typeParams
        rw [ht]
        simp
      · intro env fuel m rev q k
        refine ⟨rfl, ?_⟩
        show runActs env fuel (env q k) [] = collectActs env fuel (env q k)
        rw [runActs_eq_collect]
        simp

/-- Witness for C8 at the sample declaration and environment. -/
theorem accumulated_fn_delegates_witness :
    ∃ a, accumulatedFn sampleArgs sampleFn "my_func" = .ok a ∧
      a.sig.ident = "accumulated" ∧
      a.block = .accDelegate "Jar0" "my_func" "db" ["input1"] ∧
      (ingredientAccumulated sampleEnv 2 ⟨0⟩ 7 0 0).2 = [1, 2, 3] := by
  have h := accumulated_fn_delegates sampleArgs sampleFn "my_func" _ rfl
  refine ⟨_, rfl, h.1, ?_, ?_⟩
  · obtain ⟨dbVar, argNames, hf, hb⟩ := h.2.2.2.1
    have h0 : fnArgs sampleFn = .ok ("db", ["input1"]) := rfl
    have h1 := h0.symm.trans hf
    simp only [Except.ok.injEq, Prod.mk.injEq] at h1
    obtain ⟨hdb, hargs⟩ := h1
    subst hdb
    subst hargs
    rw [hb]
    rfl
  · rw [(h.2.2.2.2 sampleEnv 2 ⟨0⟩ 7 0 0).2]
    show collectActs sampleEnv 2 (sampleEnv 0 0) = [1, 2, 3]
    simp [sampleEnv, collectActs]

/-- On success, `db_lifetime_and_ty` returns the lifetime named on the
first parameter, or the inserted `__db`. -/
theorem dbLifetimeAndTy_ok_lifetime {f f2 : ItemFn} {lt : String}
    (h : dbLifetimeAndTy f = .ok (lt, f2)) :
    dbLifetimeFrom f.sig.inputs lt := by
  unfold dbLifetimeAndTy at h
  split at h
  · simp at h
  · simp at h
  · rename_i p ltn e rest heq
    simp only [Except.ok.injEq, Prod.mk.injEq] at h
    rw [heq]
    simp only [dbLifetimeFrom]
    exact h.1.symm
  · rename_i p e rest heq
    simp only [Except.ok.injEq, Prod.mk.injEq] at h
    rw [heq]
    simp only [dbLifetimeFrom]
    exact h.1.symm
  · simp at h
  · simp at h

/-- Claim C3: without `return_ref`, the generated getter keeps the original
signature and returns an owned value by cloning the result of `get`; with
`return_ref`, it keeps the original name but returns a reference to the
declared value type under the lifetime taken from (or inserted on) the first
`&`-typed database parameter, delegating to `get` without a clone. -/
theorem getter_clone_or_ref (args : Args) (f : ItemFn) (st : String) (g : ItemFn)
    (h : getterFn args f st = .ok g) :
    (args.returnRef = none →
      ∃ idents, getterArgIdents f.sig.inputs = .ok idents ∧
        g.sig = f.sig ∧ g.block = .cloneGet st idents) ∧
    (args.returnRef = some () →
      ∃ idents lt elem, getterArgIdents f.sig.inputs = .ok idents ∧
        g.block = .getCall st idents ∧
        g.sig.ident = f.sig.ident ∧
        g.sig.output = .ty (.ref (some lt) elem) ∧
        elem = valueTyOf f.sig ∧
        dbLifetimeFrom f.sig.inputs lt) := by
  unfold getterFn at h
  split at h
  · simp at h
  · rename_i idents heq
    split at h
    · -- return_ref present
      rename_i hsome
      split at h
      · simp at h
      · rename_i g1 heq2
        simp only [Except.ok.injEq] at h
        subst h
        constructor
        · intro hn
          rw [hn] at hsome
          simp at hsome
        · intro _
          unfold makeFnReturnRef at heq2
          split at heq2
          · simp at heq2
          · rename_i lt f2 heq3
            simp only [Except.ok.injEq] at heq2
            subst heq2
            obtain ⟨hi, -, ho, -, -⟩ := dbLifetimeAndTy_ok_preserves heq3
            refine ⟨idents, lt, _, heq, rfl, hi, rfl, ?_, dbLifetimeAndTy_ok_lifetime heq3⟩
            rw [ho]
            unfold valueTyOf
            rfl
    · -- return_ref absent
      rename_i hnone
      simp only [Except.ok.injEq] at h
      subst h
      constructor
      · intro _
        exact ⟨idents, heq, rfl, rfl⟩
      · intro hs
        rw [hs] at hnone
        simp at hnone

/-- Witness for C3: both getter shapes at the sample declaration. -/
theorem getter_clone_or_ref_witness :
    (∃ g, getterFn sampleArgs sampleFn "my_func" = .ok g ∧
       g.sig = sampleFn.sig ∧ g.block = .cloneGet "my_func" ["db", "input1"]) ∧
    (∃ g, getterFn refArgs sampleFn "my_func" = .ok g ∧
       g.block = .getCall "my_func" ["db", "input1"] ∧
       g.sig.output = .ty (.ref (some "__db") (.path "String"))) := by
  constructor
  · obtain ⟨idents, hi, hs, hb⟩ :=
      (getter_clone_or_ref sampleArgs sampleFn "my_func" _ rfl).1 rfl
    have h0 : getterArgIdents sampleFn.sig.inputs = .ok ["db", "input1"] := rfl
    have h1 := h0.symm.trans hi
    simp only [Except.ok.injEq] at h1
    subst h1
    exact ⟨_, rfl, hs, hb⟩
  · obtain ⟨idents, lt, elem, hi, hb, hid, hout, helem, hlt⟩ :=
      (getter_clone_or_ref refArgs sampleFn "my_func" _ rfl).2 rfl
    have h0 : getterArgIdents sampleFn.sig.inputs = .ok ["db", "input1"] := rfl
    have h1 := h0.symm.trans hi
    simp only [Except.ok.injEq] at h1
    subst h1
    have h2 : sampleFn.sig.inputs =
        [.typed (.ident "db") (.ref none (.path "dyn Jar0Db")),
         .typed (.ident "input1") (.path "u32")] := rfl
    rw [h2] at hlt
    simp only [dbLifetimeFrom] at hlt
    subst hlt
    subst helem
    exact ⟨_, rfl, hb, hout⟩

/-- A helper-failure inside `component_helper` surfaces as the emitted
compile error. -/
theorem component_err {args : Args} {f : ItemFn} {m : String}
    (h : componentHelper args f = .error (.compileError m)) :
    component args f = .compileErrorEmitted m := by
  unfold component
  rw [h]

/-- Lemma: `component_helper` propagates a `fn_configuration` failure. -/
theorem componentHelper_err_conf {args : Args} {f : ItemFn} {e : GenFailure}
    (h : fnConfiguration args f = .error e) :
    componentHelper args f = .error e := by
  unfold componentHelper
  rw [h]

/-- Lemma: `component_helper` propagates a `wrapper_fns` failure. -/
theorem componentHelper_err_wrap {args : Args} {f : ItemFn} {c : Configuration}
    {e : GenFailure} (hc : fnConfiguration args f = .ok c)
    (hw : wrapperFns args f (configurationStruct f) = .error e) :
    componentHelper args f = .error e := by
  unfold componentHelper
  rw [hc, hw]

/-- Lemma: `fn_configuration` propagates an `arg_ty` failure. -/
theorem fnConfiguration_err {args : Args} {f : ItemFn} {e : GenFailure}
    (h : argTy f = .error e) : fnConfiguration args f = .error e := by
  unfold fnConfiguration
  rw [h]

/-- Lemma: `fn_configuration` succeeds whenever `arg_ty` does. -/
theorem fnConfiguration_ok_of_argTy {args : Args} {f : ItemFn} {k : Ty}
    (h : argTy f = .ok k) : ∃ c, fnConfiguration args f = .ok c := by
  unfold fnConfiguration
  rw [h]
  exact ⟨_, rfl⟩

/-- Lemma: `wrapper_fns` propagates a `getter_fn` failure. -/
theorem wrapperFns_err_getter {args : Args} {f : ItemFn} {st : String}
    {e : GenFailure} (h : getterFn args f st = .error e) :
    wrapperFns args f st = .error e := by
  unfold wrapperFns
  rw [h]

/-- Lemma: `wrapper_fns` propagates a `ref_getter_fn` failure. -/
theorem wrapperFns_err_ref {args : Args} {f : ItemFn} {st : String} {g : ItemFn}
    {e : GenFailure} (hg : getterFn args f st = .ok g)
    (h : refGetterFn args f st = .error e) :
    wrapperFns args f st = .error e := by
  unfold wrapperFns
  rw [hg, h]

/-- Lemma: `getter_fn` propagates an argument-collection failure. -/
theorem getterFn_err_idents {args : Args} {f : ItemFn} {st : String}
    {e : GenFailure} (h : getterArgIdents f.sig.inputs = .error e) :
    getterFn args f st = .error e := by
  unfold getterFn
  rw [h]

/-- Without `return_ref`, `getter_fn` succeeds with the cloning body as soon
as the argument identifiers collect. -/
theorem getterFn_ok_noRef {args : Args} {f : ItemFn} {st : String}
    {idents : List String} (hn : args.returnRef.isSome = false)
    (h : getterArgIdents f.sig.inputs = .ok idents) :
    getterFn args f st = .ok { f with block := .cloneGet st idents } := by
  unfold getterFn
  rw [h]
  simp [hn]

/-- With `return_ref`, `getter_fn` propagates a `make_fn_return_ref`
failure. -/
theorem getterFn_err_mkRef {args : Args} {f : ItemFn} {st : String}
    {idents : List String} {e : GenFailure} (hs : args.returnRef.isSome = true)
    (hi : getterArgIdents f.sig.inputs = .ok idents)
    (h : makeFnReturnRef f = .error e) :
    getterFn args f st = .error e := by
  unfold getterFn
  rw [hi]
  simp [hs, h]

/-- Lemma: `make_fn_return_ref` propagates a `db_lifetime_and_ty` failure. -/
theorem makeFnReturnRef_err {f : ItemFn} {e : GenFailure}
    (h : dbLifetimeAndTy f = .error e) : makeFnReturnRef f = .error e := by
  unfold makeFnReturnRef
  rw [h]

/-- Lemma: `ref_getter_fn` propagates a `make_fn_return_ref` failure on the renamed
function. -/
theorem refGetterFn_err_mkRef {args : Args} {f : ItemFn} {st : String}
    {e : GenFailure}
    (h : makeFnReturnRef { f with sig := { f.sig with ident := "get" } } = .error e) :
    refGetterFn args f st = .error e := by
  unfold refGetterFn
  rw [h]

/-- Lemma: `arg_ty` fails (with a compile error) on every input list that is not
exactly a first argument followed by one typed argument. -/
theorem argTy_err_shape {f : ItemFn}
    (h : ∀ a p t, f.sig.inputs ≠ [a, .typed p t]) :
    ∃ m, argTy f = .error (.compileError m) := by
  cases hI : f.sig.inputs with
  | nil =>
      exact ⟨"component method needs a database argument and an entity",
        by unfold argTy; rw [hI]⟩
  | cons a tail =>
    cases tail with
    | nil =>
        exact ⟨"component method needs a database argument and an entity",
          by unfold argTy; rw [hI]⟩
    | cons b rest =>
      cases rest with
      | cons c rest2 =>
          cases b with
          | receiver =>
              exact ⟨"component method needs a database argument and an entity",
                by unfold argTy; rw [hI]⟩
          | typed p t =>
              exact ⟨"component method needs a database argument and an entity",
                by unfold argTy; rw [hI]⟩
      | nil =>
        cases b with
        | receiver =>
            exact ⟨"expected a fn parameter with a type",
              by unfold argTy; rw [hI]⟩
        | typed p t => exact absurd hI (h a p t)

/-- Lemma: `db_lifetime_and_ty` rejects a first parameter whose type is not a
`&`-reference. -/
theorem dbLifetimeAndTy_err_nonref {f : ItemFn} {p : Pat} {t : Ty}
    {rest : List FnArg} (hI : f.sig.inputs = .typed p t :: rest)
    (ht : ∀ ol e, t ≠ .ref ol e) :
    ∃ m, dbLifetimeAndTy f = .error (.compileError m) := by
  cases t with
  | ref ol e => exact absurd rfl (ht ol e)
  | path n =>
      exact ⟨"expected database to be a `&` type",
        by unfold dbLifetimeAndTy; rw [hI]⟩
  | unit =>
      exact ⟨"expected database to be a `&` type",
        by unfold dbLifetimeAndTy; rw [hI]⟩

/-- Lemma: `db_lifetime_and_ty` fails the same way on any two functions with the
same inputs. -/
theorem dbLifetimeAndTy_err_congr {f g : ItemFn} {e : GenFailure}
    (hfg : g.sig.inputs = f.sig.inputs) (h : dbLifetimeAndTy f = .error e) :
    dbLifetimeAndTy g = .error e := by
  unfold dbLifetimeAndTy at h ⊢
  rw [hfg]
  cases hI : f.sig.inputs with
  | nil => rw [hI] at h; exact h
  | cons a rest =>
    cases a with
    | receiver => rw [hI] at h; exact h
    | typed p t =>
      cases t with
      | ref ol el =>
        cases ol with
        | some l => rw [hI] at h; simp at h
        | none => rw [hI] at h; simp at h
      | path n => rw [hI] at h; exact h
      | unit => rw [hI] at h; exact h

/-- The getter's argument collection fails on any list containing an
argument that is not a plain named identifier. -/
theorem getterArgIdents_err {l : List FnArg}
    (h : ∃ a ∈ l, ∀ n t, a ≠ .typed (.ident n) t) :
    ∃ m, getterArgIdents l = .error (.compileError m) := by
  induction l with
  | nil =>
      obtain ⟨a, ha, -⟩ := h
      simp at ha
  | cons x rest ih =>
    obtain ⟨a, ha, hbad⟩ := h
    cases x with
    | receiver => exact ⟨"unexpected receiver", rfl⟩
    | typed p t =>
      cases p with
      | wild => exact ⟨"unexpected receiver", rfl⟩
      | ident n =>
        have ha' : a ∈ rest := by
          rcases List.mem_cons.mp ha with h1 | h1
          · exact absurd h1 (hbad n t)
          · exact h1
        obtain ⟨m, hm⟩ := ih ⟨a, ha', hbad⟩
        refine ⟨m, ?_⟩
        simp only [getterArgIdents]
        rw [hm]

/-- Every failure of the getter's argument collection is a compile error. -/
theorem getterArgIdents_err_isCompile {l : List FnArg} {e : GenFailure}
    (h : getterArgIdents l = .error e) : ∃ m, e = .compileError m := by
  induction l with
  | nil => simp [getterArgIdents] at h
  | cons x rest ih =>
    cases x with
    | receiver =>
        simp only [getterArgIdents, Except.error.injEq] at h
        exact ⟨_, h.symm⟩
    | typed p t =>
      cases p with
      | wild =>
          simp only [getterArgIdents, Except.error.injEq] at h
          exact ⟨_, h.symm⟩
      | ident n =>
        simp only [getterArgIdents] at h
        cases hr : getterArgIdents rest with
        | ok ns => rw [hr] at h; simp at h
        | error e2 =>
            rw [hr] at h
            simp only [Except.error.injEq] at h
            subst h
            exact ih hr

/-- Claim C5: every malformed declaration — no parameters, a receiver where
the database belongs, a non-reference first parameter, or a parameter not
bound to a plain identifier — is rejected at the code-generation boundary
with a compile error, never producing runtime code. -/
theorem declaration_errors_rejected (args : Args) (f : ItemFn) (hbad : BadDecl f) :
    ∃ m, component args f = .compileErrorEmitted m := by
  rcases hbad with hnil | ⟨rest, hrecv⟩ | ⟨p, t, rest, hI, ht⟩ | ⟨a, ha, hbada⟩
  · -- no parameters at all
    obtain ⟨m, hA⟩ := argTy_err_shape (f := f)
      (fun a p t hc => by rw [hnil] at hc; exact List.noConfusion hc)
    exact ⟨m, component_err (componentHelper_err_conf (fnConfiguration_err hA))⟩
  · -- receiver first
    by_cases hshape : ∃ p t, rest = [FnArg.typed p t]
    · obtain ⟨p, t, hrest⟩ := hshape
      have hI : f.sig.inputs = [.receiver, .typed p t] := by rw [hrecv, hrest]
      have hA : argTy f = .ok t := by unfold argTy; rw [hI]
      obtain ⟨c, hc⟩ := @fnConfiguration_ok_of_argTy args f _ hA
      have hgi : getterArgIdents f.sig.inputs =
          .error (.compileError "unexpected receiver") := by rw [hI]; rfl
      exact ⟨_, component_err (componentHelper_err_wrap hc
        (wrapperFns_err_getter (getterFn_err_idents hgi)))⟩
    · obtain ⟨m, hA⟩ := argTy_err_shape (f := f) (fun a p t hc => by
        rw [hrecv] at hc
        injection hc with h1 h2
        exact hshape ⟨p, t, h2⟩)
      exact ⟨m, component_err (componentHelper_err_conf (fnConfiguration_err hA))⟩
  · -- first parameter not a reference type
    by_cases hshape : ∃ p2 t2, rest = [FnArg.typed p2 t2]
    · obtain ⟨p2, t2, hrest⟩ := hshape
      have hI2 : f.sig.inputs = [.typed p t, .typed p2 t2] := by rw [hI, hrest]
      have hA : argTy f = .ok t2 := by unfold argTy; rw [hI2]
      obtain ⟨c, hc⟩ := @fnConfiguration_ok_of_argTy args f _ hA
      obtain ⟨m, hdb⟩ := dbLifetimeAndTy_err_nonref hI ht
      cases hgi : getterArgIdents f.sig.inputs with
      | error e =>
        obtain ⟨m2, he⟩ := getterArgIdents_err_isCompile hgi
        subst he
        exact ⟨m2, component_err (componentHelper_err_wrap hc
          (wrapperFns_err_getter (getterFn_err_idents hgi)))⟩
      | ok idents =>
        cases hs : args.returnRef.isSome with
        | true =>
            exact ⟨m, component_err (componentHelper_err_wrap hc
              (wrapperFns_err_getter
                (getterFn_err_mkRef hs hgi (makeFnReturnRef_err hdb))))⟩
        | false =>
            have hg := @getterFn_ok_noRef args f (configurationStruct f) idents hs hgi
            have hdb2 := dbLifetimeAndTy_err_congr
              (show ({ f with sig := { f.sig with ident := "get" } } : ItemFn).sig.inputs
                  = f.sig.inputs from rfl) hdb
            exact ⟨m, component_err (componentHelper_err_wrap hc
              (wrapperFns_err_ref hg
                (refGetterFn_err_mkRef (makeFnReturnRef_err hdb2))))⟩
    · obtain ⟨m, hA⟩ := argTy_err_shape (f := f) (fun a p' t' hc => by
        rw [hI] at hc
        injection hc with h1 h2
        exact hshape ⟨p', t', h2⟩)
      exact ⟨m, component_err (componentHelper_err_conf (fnConfiguration_err hA))⟩
  · -- some parameter not a plain named identifier
    by_cases hshape : ∃ b p2 t2, f.sig.inputs = [b, FnArg.typed p2 t2]
    · obtain ⟨b, p2, t2, hI⟩ := hshape
      have hA : argTy f = .ok t2 := by unfold argTy; rw [hI]
      obtain ⟨c, hc⟩ := @fnConfiguration_ok_of_argTy args f _ hA
      obtain ⟨m, hgi⟩ := getterArgIdents_err ⟨a, ha, hbada⟩
      exact ⟨m, component_err (componentHelper_err_wrap hc
        (wrapperFns_err_getter (getterFn_err_idents hgi)))⟩
    · obtain ⟨m, hA⟩ := argTy_err_shape (f := f)
        (fun b p t hc => hshape ⟨b, p, t, hc⟩)
      exact ⟨m, component_err (componentHelper_err_conf (fnConfiguration_err hA))⟩

/-- Witness for C5: the declaration with no parameters is rejected with a
compile error. -/
theorem declaration_errors_rejected_witness :
    BadDecl noArgFn ∧ ∃ m, component sampleArgs noArgFn = .compileErrorEmitted m :=
  ⟨Or.inl rfl, declaration_errors_rejected sampleArgs noArgFn (Or.inl rfl)⟩

/-- Claim C6: a declaration whose parameter count (database included) is not
exactly two — in particular one with no argument beyond the database — is
rejected with the error "component method needs a database argument and an
entity". -/
theorem zero_arg_rejected (args : Args) (f : ItemFn)
    (h : f.sig.inputs.length ≠ 2) :
    component args f =
      .compileErrorEmitted "component method needs a database argument and an entity" := by
  have hA : argTy f =
      .error (.compileError "component method needs a database argument and an entity") := by
    unfold argTy
    cases hI : f.sig.inputs with
    | nil => rfl
    | cons a tail =>
      cases tail with
      | nil => rfl
      | cons b rest =>
        cases rest with
        | nil => exact absurd (by simp [hI] : f.sig.inputs.length = 2) h
        | cons c rest2 =>
            cases b with
            | receiver => rfl
            | typed p t => rfl
  exact component_err (componentHelper_err_conf (fnConfiguration_err hA))

/-- Witness for C6: the declaration with only the database parameter. -/
theorem zero_arg_rejected_witness :
    component sampleArgs dbOnlyFn =
      .compileErrorEmitted "component method needs a database argument and an entity" :=
  zero_arg_rejected sampleArgs dbOnlyFn (by decide)

end Salsa
